import Mathlib

/-!
Shallow embedding of the personal-knowledge-base RAG backend: the document
chunker (`app/document_processor.py`), the FAISS-backed vector store
(`app/vector_store.py`) and the RAG orchestration engine
(`app/rag_engine.py`), together with proofs about chunking, the
embedding-provider lock, document add/delete/search and conversation
handling.

External effects are modelled explicitly: embedding and LLM providers are
parameters (`emb`, `gen`), disk writes are counted in a `saves` field, and
Python exceptions become `Except.error` values.
-/

/-- Python-style character slice: Lean `String.take` works on byte positions
and does not reduce in the kernel, so Python string operations are modelled
directly on the character list of a string. `pyTake s n` is Python `s[:n]`. -/
def pyTake (s : String) (n : Nat) : String := String.mk (s.data.take n)

/-- Model of Python `s.strip()`: remove leading and trailing whitespace
characters. -/
def pyStrip (s : String) : String :=
  String.mk (((s.data.dropWhile Char.isWhitespace).reverse.dropWhile Char.isWhitespace).reverse)

/-- Model of Python `m or d` for an optional string `m`: `None` and the empty
string are falsy and fall back to the default `d`. -/
def pyOrStr (m : Option String) (d : String) : String :=
  match m with
  | some s => if s = "" then d else s
  | none => d

/-- Chunk record from `app/models.py` (`DocumentChunk`). -/
structure DocumentChunk where
  doc_id : String
  doc_name : String
  chunk_id : Nat
  text : String
  start_char : Nat
  end_char : Nat
deriving DecidableEq

/-- The `while start < len(text)` loop of `DocumentProcessor.chunk_text`
(`app/document_processor.py`): emit `text[start : start+chunk_size]`, then
advance `start` by `chunk_size - chunk_overlap`.  The hypothesis
`chunk_overlap < chunk_size` is exactly what makes the Python loop
terminate. -/
def chunkTextLoop (chunk_size chunk_overlap : Nat) (hso : chunk_overlap < chunk_size)
    (doc_id doc_name : String) (text : List Char) (start cid : Nat) : List DocumentChunk :=
  if h : start < text.length then
    { doc_id := doc_id, doc_name := doc_name, chunk_id := cid,
      text := String.mk ((text.drop start).take chunk_size),
      start_char := start, end_char := start + chunk_size } ::
      chunkTextLoop chunk_size chunk_overlap hso doc_id doc_name text
        (start + (chunk_size - chunk_overlap)) (cid + 1)
  else []
termination_by text.length - start
decreasing_by omega

/-- `DocumentProcessor.chunk_text` from `app/document_processor.py`: split
`text` into fixed-size chunks with overlap, starting at offset 0 and
chunk id 0. -/
def DocumentProcessor.chunk_text (chunk_size chunk_overlap : Nat)
    (hso : chunk_overlap < chunk_size) (doc_id doc_name : String) (text : String) :
    List DocumentChunk :=
  chunkTextLoop chunk_size chunk_overlap hso doc_id doc_name text.data 0 0

lemma chunkTextLoop_length (S O : Nat) (hso : O < S) (di dn : String) (text : List Char)
    (start cid : Nat) :
    (chunkTextLoop S O hso di dn text start cid).length
      = (text.length - start + (S - O) - 1) / (S - O) := by
  have hd : 0 < S - O := by omega
  rw [chunkTextLoop]
  split
  · rename_i h
    rw [List.length_cons, chunkTextLoop_length S O hso di dn text (start + (S - O)) (cid + 1)]
    by_cases hm : text.length - start ≤ S - O
    · have h1 : text.length - (start + (S - O)) = 0 := by omega
      have h2 : text.length - start + (S - O) - 1 = (text.length - start - 1) + (S - O) := by
        omega
      rw [h1, h2, Nat.add_div_right _ hd, Nat.div_eq_of_lt (by omega),
        Nat.div_eq_of_lt (by omega)]
    · have h1 : text.length - (start + (S - O)) + (S - O) - 1
          = (text.length - start - (S - O) - 1) + (S - O) := by omega
      have h2 : text.length - start + (S - O) - 1
          = (text.length - start - (S - O) - 1) + (S - O) + (S - O) := by omega
      rw [h1, h2, Nat.add_div_right _ hd, Nat.add_div_right _ hd, Nat.add_div_right _ hd]
  · rename_i h
    have h1 : text.length - start = 0 := by omega
    rw [List.length_nil, h1, Nat.div_eq_of_lt (by omega)]
termination_by text.length - start
decreasing_by omega

lemma chunkTextLoop_eq_map (S O : Nat) (hso : O < S) (di dn : String) (text : List Char)
    (start cid : Nat) :
    chunkTextLoop S O hso di dn text start cid
      = (List.range ((text.length - start + (S - O) - 1) / (S - O))).map
          (fun n => { doc_id := di, doc_name := dn, chunk_id := cid + n,
                      text := String.mk ((text.drop (start + n * (S - O))).take S),
                      start_char := start + n * (S - O),
                      end_char := start + n * (S - O) + S }) := by
  rw [chunkTextLoop]
  split
  · rename_i h
    have hstep : (text.length - start + (S - O) - 1) / (S - O)
        = (text.length - (start + (S - O)) + (S - O) - 1) / (S - O) + 1 := by
      have h1 := chunkTextLoop_length S O hso di dn text start cid
      rw [chunkTextLoop, dif_pos h, List.length_cons,
        chunkTextLoop_length S O hso di dn text (start + (S - O)) (cid + 1)] at h1
      omega
    rw [chunkTextLoop_eq_map S O hso di dn text (start + (S - O)) (cid + 1), hstep,
      List.range_succ_eq_map, List.map_cons, List.map_map]
    congr 1
    · simp
    · apply List.map_congr_left
      intro n _
      simp only [Function.comp_apply, Nat.succ_eq_add_one]
      have e1 : start + (S - O) + n * (S - O) = start + (n + 1) * (S - O) := by
        rw [Nat.succ_mul]; omega
      have e2 : cid + 1 + n = cid + (n + 1) := by omega
      rw [e1, e2]
  · rename_i h
    have h0 : text.length - start = 0 := by omega
    rw [h0, Nat.zero_add, Nat.div_eq_of_lt (by omega)]
    simp
termination_by text.length - start
decreasing_by omega

/-- Embedding settings record from `app/models.py` (`EmbeddingSettings`). -/
structure EmbeddingSettings where
  provider : String
  model : Option String
  dimension : Nat
deriving DecidableEq

/-- State of `VectorStore` (`app/vector_store.py`).  The FAISS index is the
list of stored vectors (rationals stand in for floats); the embedding
provider object is represented by the settings it was built from.  `saves`
counts `_save_index` disk writes and `embed_calls` counts calls to the
embedding provider, so that "no persistence write / no embedding call" is
expressible. -/
structure VectorStore where
  embedding_provider : Option EmbeddingSettings
  embedding_settings : Option EmbeddingSettings
  index : Option (List (List ℚ))
  chunks : List DocumentChunk
  dimension : Option Nat
  saves : Nat
  embed_calls : Nat
deriving DecidableEq

/-- Dimension table of `OpenAIEmbeddingProvider.get_dimension`
(`app/providers/openai_provider.py`), with its default of 1536. -/
def openai_embedding_dimension (model : String) : Nat :=
  if model = "text-embedding-3-small" then 1536
  else if model = "text-embedding-3-large" then 3072
  else if model = "text-embedding-ada-002" then 1536
  else 1536

/-- `VectorStore.is_locked`: documents exist. -/
def VectorStore.is_locked (s : VectorStore) : Bool := s.chunks.length > 0

/-- Python truthiness of the `self.dimension` field (`None` and `0` are
falsy). -/
def dimTruthy : Option Nat → Bool
  | none => false
  | some d => d ≠ 0

/-- `VectorStore.set_embedding_provider`: refuses while any chunk is stored;
otherwise resolves the model default, computes the dimension (the
sentence-transformers dimension is model-dependent and supplied by the
environment parameter `st_dim`), installs provider and settings, and
recreates the index with the new dimension.  Unknown provider names raise. -/
def VectorStore.set_embedding_provider (st_dim : String → Nat) (s : VectorStore)
    (provider : String) (model0 : Option String) :
    Except String EmbeddingSettings × VectorStore :=
  if s.chunks.length > 0 then
    (.error "Cannot change embedding provider after documents have been uploaded. Please reset the knowledge base first.", s)
  else if provider = "openai" then
    let model := pyOrStr model0 "text-embedding-3-small"
    let dimension := openai_embedding_dimension model
    let settings : EmbeddingSettings := ⟨provider, some model, dimension⟩
    (.ok settings,
      { s with embedding_provider := some settings, embedding_settings := some settings,
               dimension := some dimension, index := some [] })
  else if provider = "sentence-transformers" then
    let model := pyOrStr model0 "all-MiniLM-L6-v2"
    let dimension := st_dim model
    let settings : EmbeddingSettings := ⟨provider, some model, dimension⟩
    (.ok settings,
      { s with embedding_provider := some settings, embedding_settings := some settings,
               dimension := some dimension, index := some [] })
  else
    (.error ("Unknown embedding provider: " ++ provider), s)

/-- `VectorStore.get_embedding_settings`. -/
def VectorStore.get_embedding_settings (s : VectorStore) : Option EmbeddingSettings :=
  s.embedding_settings

/-- `VectorStore.add_documents`: no-op on an empty list; raises if no
embedding provider is set; otherwise embeds every chunk text in one batch
(`emb` is the provider behaviour), appends the vectors to the index and the
chunks to the metadata list, and saves to disk. -/
def VectorStore.add_documents (emb : String → List ℚ) (s : VectorStore)
    (chunks : List DocumentChunk) : Except String Unit × VectorStore :=
  if chunks.isEmpty then (.ok (), s)
  else
    match s.embedding_provider with
    | none =>
        (.error "Embedding provider not set. Please set embedding provider before uploading documents.", s)
    | some _ =>
        let embeddings := chunks.map (fun c => emb c.text)
        match s.index with
        | none => (.error "FAISS index is not initialized", { s with embed_calls := s.embed_calls + 1 })
        | some vecs =>
            (.ok (), { s with index := some (vecs ++ embeddings),
                              chunks := s.chunks ++ chunks,
                              saves := s.saves + 1,
                              embed_calls := s.embed_calls + 1 })

/-- Squared L2 distance, the metric of `faiss.IndexFlatL2`. -/
def sqL2 (u v : List ℚ) : ℚ := ((u.zip v).map (fun p => (p.1 - p.2) ^ 2)).sum

/-- Comparison of scored index entries by distance, used to model the
ascending-distance order FAISS returns. -/
def distLE : (Nat × ℚ) → (Nat × ℚ) → Prop := fun a b => a.2 ≤ b.2

instance : DecidableRel distLE := fun a b => inferInstanceAs (Decidable (a.2 ≤ b.2))

instance : IsTotal (Nat × ℚ) distLE := ⟨fun a b => le_total a.2 b.2⟩

instance : IsTrans (Nat × ℚ) distLE := ⟨fun _ _ _ h1 h2 => le_trans h1 h2⟩

/-- `VectorStore.search`: empty result if there is no index or no stored
vector; raises if no provider is initialized; otherwise embeds the query,
ranks all stored vectors by ascending squared-L2 distance, keeps the best
`min top_k ntotal`, and pairs each surviving FAISS row id with its chunk
metadata (ids beyond the metadata list are skipped, as in the source). -/
def VectorStore.search (emb : String → List ℚ) (s : VectorStore) (query : String)
    (top_k : Nat) : Except String (List (DocumentChunk × ℚ)) :=
  match s.index with
  | none => .ok []
  | some vecs =>
    if vecs.length = 0 then .ok []
    else
      match s.embedding_provider with
      | none => .error "Embedding provider not initialized"
      | some _ =>
          let q := emb query
          let scored := (vecs.map (fun v => sqL2 q v)).enum
          let ranked := (List.insertionSort distLE scored).take (min top_k vecs.length)
          .ok (ranked.filterMap (fun p => (s.chunks.get? p.1).map (fun c => (c, p.2))))

/-- `VectorStore.delete_document`: FAISS has no native deletion, so the store
filters the retained chunks, rebuilds an empty index, and re-adds (hence
re-embeds) the retained chunks.  If nothing matched `doc_id`, nothing
changes; the rebuild only happens when a provider and a (truthy) dimension
are present. -/
def VectorStore.delete_document (emb : String → List ℚ) (s : VectorStore) (doc_id : String) :
    Except String Unit × VectorStore :=
  let remaining_chunks := s.chunks.filter (fun c => c.doc_id ≠ doc_id)
  if remaining_chunks.length = s.chunks.length then (.ok (), s)
  else
    if s.embedding_provider.isSome && dimTruthy s.dimension then
      let s1 : VectorStore := { s with index := some [], chunks := [] }
      if remaining_chunks.isEmpty then (.ok (), { s1 with saves := s1.saves + 1 })
      else VectorStore.add_documents emb s1 remaining_chunks
    else (.ok (), s)

/-- `VectorStore.reset`: recreate an empty index (when a truthy dimension is
known), drop all chunks, clear the provider and its settings, and save.
Saving raises if there is still no index to write. -/
def VectorStore.reset (s : VectorStore) : Except String Unit × VectorStore :=
  let s1 : VectorStore := if dimTruthy s.dimension then { s with index := some [] } else s
  let s2 : VectorStore :=
    { s1 with chunks := [], embedding_provider := none, embedding_settings := none }
  match s2.index with
  | none => (.error "cannot save index: no index exists", s2)
  | some _ => (.ok (), { s2 with saves := s2.saves + 1 })

/-- Configuration constants from `app/config.py`. -/
def TOP_K_RESULTS : Nat := 5

/-- `MAX_CONVERSATION_HISTORY` from `app/config.py`. -/
def MAX_CONVERSATION_HISTORY : Nat := 10

/-- `QUERY_REWRITE_HISTORY` from `app/config.py`. -/
def QUERY_REWRITE_HISTORY : Nat := 5

/-- Default LLM provider settings from `app/config.py`. -/
def DEFAULT_ANSWER_PROVIDER : String := "openai"

/-- `DEFAULT_ANSWER_MODEL` from `app/config.py`. -/
def DEFAULT_ANSWER_MODEL : String := "gpt-4"

/-- `DEFAULT_REWRITE_PROVIDER` from `app/config.py`. -/
def DEFAULT_REWRITE_PROVIDER : String := "openai"

/-- `DEFAULT_REWRITE_MODEL` from `app/config.py`. -/
def DEFAULT_REWRITE_MODEL : String := "gpt-3.5-turbo"

/-- `DEFAULT_OLLAMA_URL` from `app/config.py` (its environment fallback). -/
def DEFAULT_OLLAMA_URL : String := "http://localhost:11434"

/-- LLM settings record from `app/models.py` (`LLMSettings`). -/
structure LLMSettings where
  answer_provider : String
  answer_model : String
  rewrite_provider : String
  rewrite_model : Option String
  ollama_url : Option String
deriving DecidableEq

/-- A chat message dict with `role` and `content` keys. -/
structure Message where
  role : String
  content : String
deriving DecidableEq

/-- One entry of `RAGEngine.conversations`
(`conversation_id -> {messages, settings, title, created_at, updated_at}`). -/
structure Conversation where
  messages : List Message
  settings : LLMSettings
  title : String
  created_at : String
  updated_at : String
deriving DecidableEq

/-- Identity of a constructed LLM provider object: which class was built and
with which model / base url (`RAGEngine._get_llm_provider`). -/
structure LLMKey where
  provider : String
  model : Option String
  base_url : Option String
deriving DecidableEq

/-- `RAGEngine._get_default_settings`. -/
def get_default_settings : LLMSettings :=
  { answer_provider := DEFAULT_ANSWER_PROVIDER, answer_model := DEFAULT_ANSWER_MODEL,
    rewrite_provider := DEFAULT_REWRITE_PROVIDER,
    rewrite_model := some DEFAULT_REWRITE_MODEL, ollama_url := some DEFAULT_OLLAMA_URL }

/-- Provider construction shared by both branches of
`RAGEngine._get_llm_provider`: `openai` and `ollama` build a provider,
anything else raises `Unknown LLM provider`. -/
def mk_llm_provider (settings : LLMSettings) (provider : String) (model : Option String) :
    Except String (Option LLMKey) :=
  if provider = "openai" then .ok (some ⟨provider, model, none⟩)
  else if provider = "ollama" then
    .ok (some ⟨provider, model, some (pyOrStr settings.ollama_url DEFAULT_OLLAMA_URL)⟩)
  else .error ("Unknown LLM provider: " ++ provider)

/-- `RAGEngine._get_llm_provider`: for rewriting, the sentinel provider
`"disabled"` yields no provider at all; otherwise the answer or rewrite
provider/model pair is constructed. -/
def get_llm_provider (settings : LLMSettings) (for_rewriting : Bool) :
    Except String (Option LLMKey) :=
  if for_rewriting then
    if settings.rewrite_provider = "disabled" then .ok none
    else mk_llm_provider settings settings.rewrite_provider settings.rewrite_model
  else
    mk_llm_provider settings settings.answer_provider (some settings.answer_model)

/-- Engine state of `RAGEngine`: the vector store plus the in-memory
conversation map. -/
structure RAGEngine where
  vector_store : VectorStore
  conversations : String → Option Conversation

/-- Python `messages[-limit:]`: the trailing `limit` elements, the whole list
when `limit = 0` (Python `[-0:]` is `[0:]`). -/
def pySliceLast (l : List Message) (limit : Nat) : List Message :=
  if limit = 0 then l else l.drop (l.length - limit)

/-- The slicing of `RAGEngine._get_conversation_history`
(`messages[-limit:]` of the stored conversation, `[]` if the conversation
does not exist), generalized over the limit constant. -/
def get_conversation_history_limit (e : RAGEngine) (cid : String) (limit : Nat) :
    List Message :=
  match e.conversations cid with
  | none => []
  | some c => pySliceLast c.messages limit

/-- `RAGEngine._get_conversation_history`: the trailing
`MAX_CONVERSATION_HISTORY` messages. -/
def get_conversation_history (e : RAGEngine) (cid : String) : List Message :=
  get_conversation_history_limit e cid MAX_CONVERSATION_HISTORY

/-- `RAGEngine._generate_title`: first 50 characters of the first message,
stripped, with an ellipsis appended when the message is longer than 50
characters. -/
def generate_title (first_message : String) : String :=
  let title := pyStrip (pyTake first_message 50)
  if first_message.length > 50 then title ++ "..." else title

/-- `RAGEngine._add_to_conversation`: create the conversation on first
contact (auto-titling from a first user message), append the message,
refresh `updated_at`, and store the settings. -/
def add_to_conversation (e : RAGEngine) (cid role content : String)
    (settings : LLMSettings) (now : String) : RAGEngine :=
  let conv : Conversation :=
    match e.conversations cid with
    | none =>
        { messages := [],
          settings := settings,
          title := if role = "user" then generate_title content else "New Conversation",
          created_at := now, updated_at := now }
    | some c => c
  let conv' : Conversation :=
    { conv with messages := conv.messages ++ [⟨role, content⟩], updated_at := now,
                settings := settings }
  { e with conversations := fun k => if k = cid then some conv' else e.conversations k }

/-- `RAGEngine._get_conversation_settings` combined with the fallback logic
at the top of `RAGEngine.chat`: explicit settings win, then the
conversation settings, then the defaults. -/
def resolve_settings (e : RAGEngine) (cid : String) (settings0 : Option LLMSettings) :
    LLMSettings :=
  match settings0 with
  | some s => s
  | none =>
      match e.conversations cid with
      | some c => c.settings
      | none => get_default_settings

/-- The fixed system prompt of `RAGEngine._rewrite_query`. -/
def REWRITE_PROMPT : String :=
  "You are a query rewriting assistant. Your job is to take a user query and rewrite it to be a standalone, self-contained question that can be understood without any conversation history.\n\nInstructions:\n1. Read the conversation history to understand the context\n2. Rewrite the current query to include all necessary context from the conversation\n3. The rewritten query should be a complete, standalone question\n4. Keep the rewritten query concise but include all relevant context\n5. If the query is already standalone, you may return it as-is or with minor improvements\n\nExamples:\n- \"tell me more\" → \"Tell me more about [specific topic from previous query]\"\n- \"what about X?\" → \"What about X in the context of [previous topic]?\"\n- \"explain further\" → \"Explain [previous topic] in more detail\"\n\nReturn ONLY the rewritten query, nothing else."

/-- History formatting of `RAGEngine._rewrite_query`: one
`User:`/`Assistant:` line per message. -/
def format_history (history : List Message) : String :=
  history.foldl
    (fun acc msg =>
      acc ++ (if msg.role = "user" then "User" else "Assistant") ++ ": " ++ msg.content ++ "\n")
    ""

/-- The user message of the rewrite call in `RAGEngine._rewrite_query`. -/
def rewrite_user_message (conversation_context current_query : String) : String :=
  "Conversation history:\n" ++ conversation_context ++ "\n\nCurrent query: " ++ current_query
    ++ "\n\nRewrite the current query to be standalone and self-contained:"

/-- The two-message prompt `RAGEngine._rewrite_query` sends to the rewrite
provider, built from the trailing `QUERY_REWRITE_HISTORY` Q&A pairs. -/
def rewrite_messages (e : RAGEngine) (current_query cid : String) : List Message :=
  let history := get_conversation_history e cid
  let rewrite_history := pySliceLast history (QUERY_REWRITE_HISTORY * 2)
  [⟨"system", REWRITE_PROMPT⟩,
   ⟨"user", rewrite_user_message (format_history rewrite_history) current_query⟩]

/-- `RAGEngine._rewrite_query`: skip (returning nothing) when rewriting is
disabled or there is no history; otherwise call the rewrite provider once
with temperature 0.2 and at most 150 tokens, require a response of at least
3 characters after stripping, and wrap every failure in a fatal
`Query rewriting failed` error. -/
def rewrite_query (gen : LLMKey → List Message → ℚ → Nat → Except String String)
    (e : RAGEngine) (current_query cid : String) (settings : LLMSettings) :
    Except String (Option String) :=
  if settings.rewrite_provider = "disabled" then .ok none
  else
    let history := get_conversation_history e cid
    if history.isEmpty then .ok none
    else
      match get_llm_provider settings true with
      | .error err => .error ("Query rewriting failed: " ++ err)
      | .ok none => .ok none
      | .ok (some key) =>
          match gen key (rewrite_messages e current_query cid) (2 / 10 : ℚ) 150 with
          | .error err => .error ("Query rewriting failed: " ++ err)
          | .ok rq =>
              if rq = "" ∨ (pyStrip rq).length < 3 then
                .error "Query rewriting failed: Query rewriting returned empty or invalid response"
              else .ok (some (pyStrip rq))

/-- The chunk preview of `RAGEngine._build_context`
(`text[:200] + "..."` when longer than 200 characters). -/
def text_preview (text : String) : String :=
  if text.length > 200 then pyTake text 200 ++ "..." else text

/-- Python `round(x, 4)` on a score (rounding to four decimal places; the
claims never depend on the tie-breaking convention). -/
def round4 (x : ℚ) : ℚ := (round (x * 10000) : ℤ) / 10000

/-- One entry of the `sources` list built by `RAGEngine._build_context`. -/
structure Source where
  document : String
  chunk_id : Nat
  similarity_score : ℚ
  text_preview : String
deriving DecidableEq

/-- `RAGEngine._build_context`: search the vector store with the (possibly
rewritten) query, and fold the hits into a context string plus a source
list; empty results give an empty context. -/
def build_context (emb : String → List ℚ) (vs : VectorStore) (query : String)
    (top_k : Nat) : Except String (String × List Source) :=
  match VectorStore.search emb vs query top_k with
  | .error err => .error err
  | .ok results =>
    if results.isEmpty then .ok ("", [])
    else
      let context_parts := results.enum.map
        (fun p => "[Document " ++ toString (p.1 + 1) ++ ": " ++ p.2.1.doc_name ++ "]\n"
          ++ p.2.1.text ++ "\n")
      let sources := results.map
        (fun p => Source.mk p.1.doc_name p.1.chunk_id (round4 p.2) (text_preview p.1.text))
      .ok (String.intercalate "\n" context_parts, sources)

/-- The fixed answering system prompt of `RAGEngine.chat` (contractions
spelled out). -/
def SYSTEM_PROMPT : String :=
  "You are a helpful AI assistant that answers questions based on the provided context from the knowledge base of the user.\n\nCRITICAL RULES:\n1. ALWAYS base your answer on the CURRENT context provided with each question\n2. The context is retrieved fresh for EACH question - use it as your primary source\n3. You may use conversation history for context about what was discussed, but NEVER to answer factual questions\n4. If the current context does not contain the answer, say so clearly - do not rely on previous answers\n5. Each question should be treated as requiring fresh information from the knowledge base\n6. Cite specific documents from the CURRENT context when making claims\n\nInstructions:\n- Answer questions using ONLY the information from the CURRENT context provided below\n- If the context does not contain enough information to answer, say so clearly\n- Be concise but comprehensive\n- Always cite specific documents when making claims\n- Use conversation history only to understand follow-up questions or references, not to answer them\n"

/-- The final user message of `RAGEngine.chat`: the fresh context block (or
an explicit no-context marker) plus the original user question. -/
def chat_user_message (context query : String) : String :=
  if context ≠ "" then
    "===CURRENT CONTEXT FROM KNOWLEDGE BASE===\n" ++ context
      ++ "\n\n===END OF CURRENT CONTEXT===\n\nUser question: " ++ query
      ++ "\n\nRemember: Answer ONLY based on the CURRENT CONTEXT provided above. Do not use information from previous answers unless explicitly present in the current context."
  else
    "===CURRENT CONTEXT FROM KNOWLEDGE BASE===\nNo relevant context found in the knowledge base for this question.\n\n===END OF CURRENT CONTEXT===\n\nUser question: " ++ query

/-- The message list `RAGEngine.chat` sends to the answer provider: system
prompt, the last 3 Q&A pairs of history (when any), and the user message
with the fresh context. -/
def chat_messages (e : RAGEngine) (cid query context : String) : List Message :=
  let history := get_conversation_history e cid
  [⟨"system", SYSTEM_PROMPT⟩]
    ++ (if history.isEmpty then [] else pySliceLast history 6)
    ++ [⟨"user", chat_user_message context query⟩]

/-- The tuple `RAGEngine.chat` returns:
`(answer, sources, rewritten_query, applied_settings)`. -/
structure ChatResult where
  answer : String
  sources : List Source
  rewritten_query : Option String
  settings : LLMSettings
deriving DecidableEq

/-- The search query resolution of `RAGEngine.chat`
(`rewritten_query if rewritten_query else query`; the empty string is
falsy). -/
def resolve_search_query (rewritten_query : Option String) (query : String) : String :=
  match rewritten_query with
  | some rq => if rq = "" then query else rq
  | none => query

/-- The part of `RAGEngine.chat` after the rewrite step: retrieve context
with the search query, generate the answer with temperature 0.3 via the
configured answer provider, and only then append the user turn and the
answer to the conversation.  Every raising path returns the engine
unchanged, because nothing mutates the conversation map before the
appends. -/
def chat_stage2 (gen : LLMKey → List Message → ℚ → Nat → Except String String)
    (emb : String → List ℚ) (e : RAGEngine) (query cid : String)
    (settings : LLMSettings) (rewritten_query : Option String) (now : String) :
    Except String ChatResult × RAGEngine :=
  match build_context emb e.vector_store (resolve_search_query rewritten_query query)
      TOP_K_RESULTS with
  | .error err => (.error err, e)
  | .ok (context, sources) =>
    match get_llm_provider settings false with
    | .error err => (.error ("Answer generation failed: " ++ err), e)
    | .ok none => (.error "Answer generation failed: no provider", e)
    | .ok (some key) =>
      match gen key (chat_messages e cid query context) (3 / 10 : ℚ) 1000 with
      | .error err => (.error ("Answer generation failed: " ++ err), e)
      | .ok answer =>
        (.ok ⟨answer, sources, rewritten_query, settings⟩,
          add_to_conversation
            (add_to_conversation e cid "user" query settings now)
            cid "assistant" answer settings now)

/-- `RAGEngine.chat`: resolve the settings, run the (optional, fatal on
failure) rewrite step, then `chat_stage2`. -/
def chat (gen : LLMKey → List Message → ℚ → Nat → Except String String)
    (emb : String → List ℚ) (e : RAGEngine) (query cid : String)
    (settings0 : Option LLMSettings) (now : String) :
    Except String ChatResult × RAGEngine :=
  let settings := resolve_settings e cid settings0
  match (if settings.rewrite_provider ≠ "disabled"
      then rewrite_query gen e query cid settings else .ok none) with
  | .error err => (.error err, e)
  | .ok rewritten_query => chat_stage2 gen emb e query cid settings rewritten_query now

lemma string_mk_length (l : List Char) : (String.mk l).length = l.length := rfl

lemma string_mk_data (l : List Char) : (String.mk l).data = l := rfl

/-- Closed form of `chunk_text`: the list of chunks as a map over chunk
indices. -/
lemma chunk_text_eq_map (S O : Nat) (hso : O < S) (di dn : String) (text : String) :
    DocumentProcessor.chunk_text S O hso di dn text
      = (List.range ((text.length + (S - O) - 1) / (S - O))).map
          (fun n => { doc_id := di, doc_name := dn, chunk_id := n,
                      text := String.mk ((text.data.drop (n * (S - O))).take S),
                      start_char := n * (S - O), end_char := n * (S - O) + S }) := by
  rw [DocumentProcessor.chunk_text, chunkTextLoop_eq_map]
  simp only [Nat.sub_zero, Nat.zero_add]
  rfl

lemma chunk_text_2500_count :
    ((String.mk (List.replicate 2500 'a')).length + (1000 - 200) - 1) / (1000 - 200) = 4 := by
  rw [string_mk_length, List.length_replicate]

/-- C1 (amended): for overlap `O < S` and any text, `chunk_text` produces
exactly `ceil(L / (S − O))` chunks; chunk `n` has `start_char = n·(S−O)`,
`chunk_id = n`, `end_char = n·(S−O) + S`, and text of length
`min S (L − n·(S−O))` — so chunks truncated by the end of the text may be
shorter than `S` even when they are not the last.  In particular a
2500-character text with `S = 1000, O = 200` yields chunks with start
offsets `0, 800, 1600, 2400`. -/
theorem chunk_text_count_offsets_lengths (S O : Nat) (hso : O < S) (di dn : String)
    (text : String) :
    (DocumentProcessor.chunk_text S O hso di dn text).length
        = (text.length + (S - O) - 1) / (S - O)
    ∧ (∀ n (hn : n < (DocumentProcessor.chunk_text S O hso di dn text).length),
        ((DocumentProcessor.chunk_text S O hso di dn text).get ⟨n, hn⟩).start_char
            = n * (S - O)
        ∧ ((DocumentProcessor.chunk_text S O hso di dn text).get ⟨n, hn⟩).chunk_id = n
        ∧ ((DocumentProcessor.chunk_text S O hso di dn text).get ⟨n, hn⟩).end_char
            = n * (S - O) + S
        ∧ ((DocumentProcessor.chunk_text S O hso di dn text).get ⟨n, hn⟩).text.length
            = min S (text.length - n * (S - O)))
    ∧ (DocumentProcessor.chunk_text 1000 200 (by omega) "d" "doc"
          (String.mk (List.replicate 2500 'a'))).map DocumentChunk.start_char
        = [0, 800, 1600, 2400] := by
  refine ⟨?_, ?_, ?_⟩
  · rw [chunk_text_eq_map S O hso]
    simp
  · intro n hn
    simp only [chunk_text_eq_map S O hso, List.get_eq_getElem, List.getElem_map,
      List.getElem_range]
    refine ⟨trivial, trivial, trivial, ?_⟩
    show ((text.data.drop (n * (S - O))).take S).length = _
    simp only [List.length_take, List.length_drop]
    rfl
  · rw [chunk_text_eq_map 1000 200 (by omega), chunk_text_2500_count, List.map_map,
      show List.range 4 = [0, 1, 2, 3] from rfl]
    simp only [List.map_cons, List.map_nil, Function.comp_apply]

/-- C1 (counterexample to the claim as stated): on the spec's own scenario —
a 2500-character text with `chunk_size = 1000`, `chunk_overlap = 200` —
the code produces 4 chunks of text lengths `1000, 1000, 900, 100`, while the
claimed count `ceil((L−O)/(S−O))` is 3, and the third chunk (which is not
the last of the four) has length 900, not `chunk_size`. -/
theorem chunk_text_claim_fails_on_2500 :
    (DocumentProcessor.chunk_text 1000 200 (by omega) "d" "doc"
        (String.mk (List.replicate 2500 'a'))).map (fun c => c.text.length)
      = [1000, 1000, 900, 100]
    ∧ (2500 - 200 + (1000 - 200) - 1) / (1000 - 200) = 3 := by
  constructor
  · rw [chunk_text_eq_map 1000 200 (by omega), chunk_text_2500_count, List.map_map,
      show List.range 4 = [0, 1, 2, 3] from rfl]
    simp only [List.map_cons, List.map_nil, Function.comp_apply, string_mk_length,
      string_mk_data, List.length_take, List.length_drop, List.length_replicate]
    all_goals norm_num
  · norm_num


lemma isEmpty_false_of_ne_nil {α : Type} {l : List α} (h : l ≠ []) : l.isEmpty = false := by
  cases l with
  | nil => exact absurd rfl h
  | cons a t => rfl

lemma add_documents_nil (emb : String → List ℚ) (s : VectorStore) :
    s.add_documents emb [] = (.ok (), s) := rfl

lemma add_documents_no_provider (emb : String → List ℚ) (s : VectorStore)
    (cs : List DocumentChunk) (hcs : cs ≠ []) (hp : s.embedding_provider = none) :
    s.add_documents emb cs
      = (.error "Embedding provider not set. Please set embedding provider before uploading documents.", s) := by
  simp only [VectorStore.add_documents, isEmpty_false_of_ne_nil hcs, Bool.false_eq_true,
    if_false, hp]

lemma add_documents_ok (emb : String → List ℚ) (s : VectorStore) (cs : List DocumentChunk)
    (es : EmbeddingSettings) (vecs : List (List ℚ)) (hcs : cs ≠ [])
    (hp : s.embedding_provider = some es) (hi : s.index = some vecs) :
    s.add_documents emb cs
      = (.ok (), { s with index := some (vecs ++ cs.map (fun c => emb c.text)),
                          chunks := s.chunks ++ cs,
                          saves := s.saves + 1,
                          embed_calls := s.embed_calls + 1 }) := by
  simp only [VectorStore.add_documents, isEmpty_false_of_ne_nil hcs, Bool.false_eq_true,
    if_false, hp, hi]

lemma set_embedding_provider_locked (st_dim : String → Nat) (s : VectorStore)
    (provider : String) (model0 : Option String) (h : s.chunks ≠ []) :
    s.set_embedding_provider st_dim provider model0
      = (.error "Cannot change embedding provider after documents have been uploaded. Please reset the knowledge base first.", s) := by
  rw [VectorStore.set_embedding_provider, if_pos (List.length_pos.mpr h)]

lemma set_embedding_provider_openai (st_dim : String → Nat) (s : VectorStore)
    (model0 : Option String) (h : s.chunks = []) :
    s.set_embedding_provider st_dim "openai" model0
      = (.ok ⟨"openai", some (pyOrStr model0 "text-embedding-3-small"),
              openai_embedding_dimension (pyOrStr model0 "text-embedding-3-small")⟩,
          { s with
            embedding_provider := some ⟨"openai", some (pyOrStr model0 "text-embedding-3-small"),
              openai_embedding_dimension (pyOrStr model0 "text-embedding-3-small")⟩,
            embedding_settings := some ⟨"openai", some (pyOrStr model0 "text-embedding-3-small"),
              openai_embedding_dimension (pyOrStr model0 "text-embedding-3-small")⟩,
            dimension := some (openai_embedding_dimension (pyOrStr model0 "text-embedding-3-small")),
            index := some [] }) := by
  rw [VectorStore.set_embedding_provider, if_neg (by simp [h]), if_pos rfl]

lemma reset_configured (s : VectorStore) (hdim : dimTruthy s.dimension = true) :
    s.reset = (.ok (), { s with index := some [], chunks := [], embedding_provider := none,
                                embedding_settings := none, saves := s.saves + 1 }) := by
  rw [VectorStore.reset]
  simp only [hdim, if_true]

/-- C2 (amended): `set_embedding_provider` fails with the lock error exactly
while the store holds at least one chunk — which is the case after every
successful non-empty `add_documents` call — and `reset()` returns a
configured store to zero chunks with no settings and no provider, after
which `set_embedding_provider` succeeds again.  (`reset` is not the only
road back to an unlocked store: deleting every document also empties it,
see the counterexample.) -/
theorem set_embedding_provider_lock (st_dim : String → Nat) (emb : String → List ℚ)
    (s : VectorStore) (provider : String) (model0 : Option String) :
    (s.chunks ≠ [] →
      s.set_embedding_provider st_dim provider model0
        = (.error "Cannot change embedding provider after documents have been uploaded. Please reset the knowledge base first.", s))
    ∧ (∀ cs s' u, cs ≠ [] → s.add_documents emb cs = (.ok u, s') → s'.chunks ≠ [])
    ∧ (dimTruthy s.dimension = true →
        ∃ s2, s.reset = (.ok (), s2) ∧ s2.chunks = [] ∧ s2.embedding_settings = none
          ∧ s2.embedding_provider = none
          ∧ ∃ settings s3, s2.set_embedding_provider st_dim "openai" model0
              = (.ok settings, s3)) := by
  refine ⟨fun h => set_embedding_provider_locked st_dim s provider model0 h, ?_, ?_⟩
  · intro cs s' u hcs hadd
    cases hp : s.embedding_provider with
    | none =>
        rw [add_documents_no_provider emb s cs hcs hp] at hadd
        exact absurd (congrArg Prod.fst hadd) (by simp)
    | some es =>
        cases hi : s.index with
        | none =>
            simp only [VectorStore.add_documents, isEmpty_false_of_ne_nil hcs,
              Bool.false_eq_true, if_false, hp, hi] at hadd
            exact absurd (congrArg Prod.fst hadd) (by simp)
        | some vecs =>
            rw [add_documents_ok emb s cs es vecs hcs hp hi] at hadd
            have h2 : s' = { s with index := some (vecs ++ cs.map (fun c => emb c.text)),
                                    chunks := s.chunks ++ cs,
                                    saves := s.saves + 1,
                                    embed_calls := s.embed_calls + 1 } :=
              (congrArg Prod.snd hadd).symm
            rw [h2]
            simp [hcs]
  · intro hdim
    refine ⟨_, reset_configured s hdim, rfl, rfl, rfl, _, _,
      set_embedding_provider_openai st_dim _ model0 rfl⟩

/-- A concrete embedding behaviour used in concrete instantiations: embed a
text as the one-dimensional vector holding its length. -/
def emb0 : String → List ℚ := fun t => [(t.length : ℚ)]

/-- A concrete stored chunk. -/
def sampleChunk : DocumentChunk := ⟨"d1", "doc1.txt", 0, "hello world", 0, 11⟩

/-- A second concrete chunk belonging to another document. -/
def sampleChunk2 : DocumentChunk := ⟨"d2", "doc2.txt", 0, "goodbye", 0, 7⟩

/-- Concrete embedding settings. -/
def sampleSettings : EmbeddingSettings := ⟨"openai", some "text-embedding-3-small", 1536⟩

/-- A concrete configured store holding one chunk of document `d1`, with the
vector the `emb0` provider would have produced for it. -/
def lockedStore : VectorStore :=
  { embedding_provider := some sampleSettings, embedding_settings := some sampleSettings,
    index := some [[11]], chunks := [sampleChunk], dimension := some 1536,
    saves := 0, embed_calls := 0 }

/-- C2 (counterexample to "succeeds again only after `reset()`"): deleting
the last document also unlocks the store.  On a configured store with one
chunk, `set_embedding_provider` fails with the lock error, but after
`delete_document "d1"` — with `reset()` never called — the store holds zero
chunks, still has its embedding settings, and `set_embedding_provider`
succeeds. -/
theorem set_embedding_provider_unlocked_without_reset :
    (lockedStore.set_embedding_provider (fun _ => 384) "openai" none).1
      = .error "Cannot change embedding provider after documents have been uploaded. Please reset the knowledge base first."
    ∧ (lockedStore.delete_document emb0 "d1").1 = .ok ()
    ∧ ((lockedStore.delete_document emb0 "d1").2).chunks = []
    ∧ ((lockedStore.delete_document emb0 "d1").2).embedding_settings = some sampleSettings
    ∧ (((lockedStore.delete_document emb0 "d1").2).set_embedding_provider
          (fun _ => 384) "openai" none).1
        = .ok ⟨"openai", some "text-embedding-3-small", 1536⟩ := by
  refine ⟨rfl, rfl, rfl, rfl, rfl⟩

/-- C3: `add_documents` with an empty list returns the state unchanged (same
index, same chunks, same save count, same embedding-call count); with a
non-empty list and no provider it fails with the "provider not set" error
and leaves the store unchanged; otherwise it appends every chunk's vector
and metadata, saves once, and the store is locked afterwards. -/
theorem add_documents_cases (emb : String → List ℚ) (s : VectorStore)
    (cs : List DocumentChunk) :
    s.add_documents emb [] = (.ok (), s)
    ∧ (cs ≠ [] → s.embedding_provider = none →
        s.add_documents emb cs
          = (.error "Embedding provider not set. Please set embedding provider before uploading documents.", s))
    ∧ (∀ es vecs, cs ≠ [] → s.embedding_provider = some es → s.index = some vecs →
        s.add_documents emb cs
            = (.ok (), { s with index := some (vecs ++ cs.map (fun c => emb c.text)),
                                chunks := s.chunks ++ cs,
                                saves := s.saves + 1,
                                embed_calls := s.embed_calls + 1 })
          ∧ ((s.add_documents emb cs).2).is_locked = true) := by
  refine ⟨add_documents_nil emb s, fun hcs hp => add_documents_no_provider emb s cs hcs hp,
    ?_⟩
  intro es vecs hcs hp hi
  refine ⟨add_documents_ok emb s cs es vecs hcs hp hi, ?_⟩
  rw [add_documents_ok emb s cs es vecs hcs hp hi]
  simp only [VectorStore.is_locked, List.length_append, decide_eq_true_eq]
  have := List.length_pos.mpr hcs
  omega

/-- C3 witness. -/
theorem add_documents_cases_witness :
    lockedStore.add_documents emb0 [sampleChunk2]
        = (.ok (), { lockedStore with
              index := some ([[11]] ++ [sampleChunk2].map (fun c => emb0 c.text)),
              chunks := lockedStore.chunks ++ [sampleChunk2],
              saves := lockedStore.saves + 1,
              embed_calls := lockedStore.embed_calls + 1 })
      ∧ ((lockedStore.add_documents emb0 [sampleChunk2]).2).is_locked = true :=
  (add_documents_cases emb0 lockedStore [sampleChunk2]).2.2 sampleSettings [[11]]
    (List.cons_ne_nil _ _) rfl rfl

/-- C1 witness. -/
theorem chunk_text_count_offsets_lengths_witness :
    (DocumentProcessor.chunk_text 3 1 (by decide) "d" "n" "abcde").length
      = ("abcde".length + (3 - 1) - 1) / (3 - 1) :=
  (chunk_text_count_offsets_lengths 3 1 (by decide) "d" "n" "abcde").1

/-- C2 witness. -/
theorem set_embedding_provider_lock_witness :
    lockedStore.set_embedding_provider (fun _ => 384) "openai" none
      = (.error "Cannot change embedding provider after documents have been uploaded. Please reset the knowledge base first.", lockedStore) :=
  (set_embedding_provider_lock (fun _ => 384) emb0 lockedStore "openai" none).1 (by decide)

/-- C4: `search` returns the empty list whenever the store holds no index or
zero vectors, and every successful search returns at most `top_k` scored
chunks in ascending score order (lower score = closer). -/
theorem search_empty_and_sorted (emb : String → List ℚ) (s : VectorStore) (q : String)
    (k : Nat) :
    ((s.index = none ∨ s.index = some []) → s.search emb q k = .ok [])
    ∧ (∀ res, s.search emb q k = .ok res →
        res.length ≤ k ∧ res.Pairwise (fun a b => a.2 ≤ b.2)) := by
  constructor
  · rintro (hI | hI) <;> simp [VectorStore.search, hI]
  · intro res hres
    cases hI : s.index with
    | none =>
        simp only [VectorStore.search, hI] at hres
        cases hres
        simp
    | some vecs =>
        simp only [VectorStore.search, hI] at hres
        by_cases hv : vecs.length = 0
        · rw [if_pos hv] at hres
          cases hres
          simp
        · rw [if_neg hv] at hres
          cases hp : s.embedding_provider with
          | none => rw [hp] at hres; cases hres
          | some es =>
              rw [hp] at hres
              injection hres with hres
              subst hres
              constructor
              · refine le_trans (List.length_filterMap_le _ _) ?_
                rw [List.length_take]
                exact le_trans inf_le_left (min_le_left _ _)
              · have hsorted : List.Pairwise distLE
                    (List.insertionSort distLE ((vecs.map (fun v => sqL2 (emb q) v)).enum)) :=
                  List.sorted_insertionSort distLE _
                have htake : List.Pairwise distLE
                    ((List.insertionSort distLE
                        ((vecs.map (fun v => sqL2 (emb q) v)).enum)).take (min k vecs.length)) :=
                  List.Pairwise.sublist (List.take_sublist _ _) hsorted
                rw [List.pairwise_filterMap]
                refine htake.imp ?_
                intro a b hab x hx y hy
                cases hga : s.chunks.get? a.1 with
                | none => rw [hga] at hx; exact absurd hx (by simp)
                | some ca =>
                    cases hgb : s.chunks.get? b.1 with
                    | none => rw [hgb] at hy; exact absurd hy (by simp)
                    | some cb =>
                        rw [hga] at hx
                        rw [hgb] at hy
                        simp only [Option.mem_def, Option.map_some', Option.some.injEq] at hx hy
                        subst hx
                        subst hy
                        exact hab

/-- C4 witness. -/
theorem search_empty_and_sorted_witness :
    VectorStore.search emb0
        { embedding_provider := none, embedding_settings := none, index := none,
          chunks := [], dimension := none, saves := 0, embed_calls := 0 } "q" 5
      = .ok [] :=
  (search_empty_and_sorted emb0
    { embedding_provider := none, embedding_settings := none, index := none,
      chunks := [], dimension := none, saves := 0, embed_calls := 0 } "q" 5).1 (.inl rfl)

lemma search_congr (emb : String → List ℚ) (s t : VectorStore)
    (hI : s.index = t.index) (hC : s.chunks = t.chunks)
    (hP : s.embedding_provider = t.embedding_provider) (q : String) (k : Nat) :
    s.search emb q k = t.search emb q k := by
  cases hJ : t.index with
  | none => simp only [VectorStore.search, hI.trans hJ, hJ]
  | some vecs => simp only [VectorStore.search, hI.trans hJ, hJ, hC, hP]

lemma delete_document_rebuild (emb : String → List ℚ) (t : VectorStore) (doc_id : String)
    (es : EmbeddingSettings) (d : Nat)
    (hp : t.embedding_provider = some es) (hd : t.dimension = some d) (hd0 : d ≠ 0)
    (hlen : (t.chunks.filter (fun c => c.doc_id ≠ doc_id)).length ≠ t.chunks.length) :
    ∃ sv ec, t.delete_document emb doc_id
      = (.ok (), { t with
            index := some ((t.chunks.filter (fun c => c.doc_id ≠ doc_id)).map
              (fun c => emb c.text)),
            chunks := t.chunks.filter (fun c => c.doc_id ≠ doc_id),
            saves := sv, embed_calls := ec }) := by
  rw [VectorStore.delete_document]
  simp only [if_neg hlen, hp, hd]
  rw [if_pos (by simp [dimTruthy, hd0])]
  by_cases hrem : (t.chunks.filter (fun c => c.doc_id ≠ doc_id)).isEmpty = true
  · have hnil : t.chunks.filter (fun c => c.doc_id ≠ doc_id) = [] := by
      cases he : t.chunks.filter (fun c => c.doc_id ≠ doc_id) with
      | nil => rfl
      | cons a l => rw [he] at hrem; exact absurd hrem (by simp [List.isEmpty])
    rw [if_pos hrem]
    exact ⟨t.saves + 1, t.embed_calls, by rw [hnil]; rfl⟩
  · have hne : t.chunks.filter (fun c => c.doc_id ≠ doc_id) ≠ [] := by
      intro hc
      exact hrem (by rw [hc]; rfl)
    rw [if_neg hrem,
      add_documents_ok emb _ (t.chunks.filter (fun c => c.doc_id ≠ doc_id)) es [] hne rfl rfl]
    exact ⟨t.saves + 1, t.embed_calls + 1, by simp⟩

/-- C5: adding a fresh document's chunks and then deleting that document
leaves `search` answering exactly as the original store did, for every query
and every `top_k`.  The hypotheses say the starting store is a reachable
one: provider and non-zero dimension present, and the stored vectors are the
embeddings of the stored chunk texts; the new chunks are non-empty, all
belong to `doc_id`, and `doc_id` is not already present. -/
theorem add_delete_roundtrip (emb : String → List ℚ) (s : VectorStore) (doc_id : String)
    (new_cs : List DocumentChunk) (es : EmbeddingSettings) (d : Nat) (vecs : List (List ℚ))
    (hp : s.embedding_provider = some es) (hd : s.dimension = some d) (hd0 : d ≠ 0)
    (hi : s.index = some vecs) (hw : vecs = s.chunks.map (fun c => emb c.text))
    (hold : ∀ c ∈ s.chunks, c.doc_id ≠ doc_id)
    (hnew : new_cs ≠ []) (hnewid : ∀ c ∈ new_cs, c.doc_id = doc_id) :
    (s.add_documents emb new_cs).1 = .ok ()
    ∧ (((s.add_documents emb new_cs).2).delete_document emb doc_id).1 = .ok ()
    ∧ ∀ q k, ((((s.add_documents emb new_cs).2).delete_document emb doc_id).2).search emb q k
        = s.search emb q k := by
  have hadd := add_documents_ok emb s new_cs es vecs hnew hp hi
  have hfilterA : s.chunks.filter (fun c => c.doc_id ≠ doc_id) = s.chunks :=
    List.filter_eq_self.mpr (fun a ha => by simpa using hold a ha)
  have hfilterB : new_cs.filter (fun c => c.doc_id ≠ doc_id) = [] := by
    rw [List.filter_eq_nil_iff]
    intro a ha
    simpa using hnewid a ha
  have hfilter : (s.chunks ++ new_cs).filter (fun c => c.doc_id ≠ doc_id) = s.chunks := by
    rw [List.filter_append, hfilterA, hfilterB, List.append_nil]
  have hlen : ((s.chunks ++ new_cs).filter (fun c => c.doc_id ≠ doc_id)).length
      ≠ (s.chunks ++ new_cs).length := by
    rw [hfilter, List.length_append]
    have := List.length_pos.mpr hnew
    omega
  obtain ⟨sv, ec, hdel⟩ := delete_document_rebuild emb (s.add_documents emb new_cs).2
    doc_id es d (by rw [hadd]; exact hp) (by rw [hadd]; exact hd) hd0
    (by rw [hadd]; exact hlen)
  refine ⟨by rw [hadd], by rw [hdel], ?_⟩
  intro q k
  rw [hdel]
  refine search_congr emb _ s ?_ ?_ ?_ q k
  · show some _ = s.index
    rw [hi, hadd]
    show some ((((s.chunks ++ new_cs).filter (fun c => c.doc_id ≠ doc_id)).map
      (fun c => emb c.text))) = some vecs
    rw [hfilter, hw]
  · show _ = s.chunks
    rw [hadd]
    show ((s.chunks ++ new_cs).filter (fun c => c.doc_id ≠ doc_id)) = s.chunks
    exact hfilter
  · show _ = s.embedding_provider
    rw [hadd]

lemma rewrite_query_disabled (gen : LLMKey → List Message → ℚ → Nat → Except String String)
    (e : RAGEngine) (query cid : String) (settings : LLMSettings)
    (h : settings.rewrite_provider = "disabled") :
    rewrite_query gen e query cid settings = .ok none := by
  rw [rewrite_query, if_pos h]

lemma rewrite_query_no_history (gen : LLMKey → List Message → ℚ → Nat → Except String String)
    (e : RAGEngine) (query cid : String) (settings : LLMSettings)
    (h : get_conversation_history e cid = []) :
    rewrite_query gen e query cid settings = .ok none := by
  rw [rewrite_query]
  by_cases hd : settings.rewrite_provider = "disabled"
  · rw [if_pos hd]
  · rw [if_neg hd]
    simp [h]

lemma chat_of_rw_ok (gen : LLMKey → List Message → ℚ → Nat → Except String String)
    (emb : String → List ℚ) (e : RAGEngine) (query cid : String)
    (settings0 : Option LLMSettings) (now : String) (orw : Option String)
    (hrw : (if (resolve_settings e cid settings0).rewrite_provider ≠ "disabled"
        then rewrite_query gen e query cid (resolve_settings e cid settings0)
        else .ok none) = .ok orw) :
    chat gen emb e query cid settings0 now
      = chat_stage2 gen emb e query cid (resolve_settings e cid settings0) orw now := by
  simp only [chat, hrw]

lemma chat_of_rw_error (gen : LLMKey → List Message → ℚ → Nat → Except String String)
    (emb : String → List ℚ) (e : RAGEngine) (query cid : String)
    (settings0 : Option LLMSettings) (now : String) (err : String)
    (hrw : (if (resolve_settings e cid settings0).rewrite_provider ≠ "disabled"
        then rewrite_query gen e query cid (resolve_settings e cid settings0)
        else .ok none) = .error err) :
    chat gen emb e query cid settings0 now = (.error err, e) := by
  simp only [chat, hrw]

/-- C6: whenever the resolved settings disable rewriting or the conversation
has no history, the rewriter returns nothing, and every successful chat
turn has no `rewritten_query` and retrieves its sources with the original
query. -/
theorem chat_skips_rewrite (gen : LLMKey → List Message → ℚ → Nat → Except String String)
    (emb : String → List ℚ) (e : RAGEngine) (query cid : String)
    (settings0 : Option LLMSettings) (now : String)
    (h : (resolve_settings e cid settings0).rewrite_provider = "disabled"
        ∨ get_conversation_history e cid = []) :
    rewrite_query gen e query cid (resolve_settings e cid settings0) = .ok none
    ∧ ∀ r e', chat gen emb e query cid settings0 now = (.ok r, e') →
        r.rewritten_query = none
        ∧ ∃ ctx, build_context emb e.vector_store query TOP_K_RESULTS = .ok (ctx, r.sources) := by
  have hrq : rewrite_query gen e query cid (resolve_settings e cid settings0) = .ok none := by
    cases h with
    | inl hd => exact rewrite_query_disabled gen e query cid _ hd
    | inr hh => exact rewrite_query_no_history gen e query cid _ hh
  have hrw : (if (resolve_settings e cid settings0).rewrite_provider ≠ "disabled"
      then rewrite_query gen e query cid (resolve_settings e cid settings0)
      else .ok none) = .ok none := by
    by_cases hd : (resolve_settings e cid settings0).rewrite_provider = "disabled"
    · rw [if_neg (fun hc => hc hd)]
    · rw [if_pos hd]
      exact hrq
  refine ⟨hrq, ?_⟩
  intro r e' hchat
  rw [chat_of_rw_ok gen emb e query cid settings0 now none hrw] at hchat
  have hsq : resolve_search_query none query = query := rfl
  cases hbc : build_context emb e.vector_store query TOP_K_RESULTS with
  | error err =>
      simp only [chat_stage2, hsq, hbc] at hchat
      exact absurd (congrArg Prod.fst hchat) (by simp)
  | ok p =>
      obtain ⟨ctx, srcs⟩ := p
      cases hkey : get_llm_provider (resolve_settings e cid settings0) false with
      | error err =>
          simp only [chat_stage2, hsq, hbc, hkey] at hchat
          exact absurd (congrArg Prod.fst hchat) (by simp)
      | ok op =>
          cases op with
          | none =>
              simp only [chat_stage2, hsq, hbc, hkey] at hchat
              exact absurd (congrArg Prod.fst hchat) (by simp)
          | some key =>
              cases hgen : gen key (chat_messages e cid query ctx) (3 / 10 : ℚ) 1000 with
              | error err =>
                  simp only [chat_stage2, hsq, hbc, hkey, hgen] at hchat
                  exact absurd (congrArg Prod.fst hchat) (by simp)
              | ok ans =>
                  simp only [chat_stage2, hsq, hbc, hkey, hgen] at hchat
                  have hr : ChatResult.mk ans srcs none (resolve_settings e cid settings0) = r := by
                    have := congrArg Prod.fst hchat
                    simpa using this
                  rw [← hr]
                  exact ⟨rfl, ctx, rfl⟩

lemma rewrite_query_attempt (gen : LLMKey → List Message → ℚ → Nat → Except String String)
    (e : RAGEngine) (query cid : String) (settings : LLMSettings) (key : LLMKey)
    (h1 : settings.rewrite_provider ≠ "disabled")
    (h2 : get_conversation_history e cid ≠ [])
    (hkey : get_llm_provider settings true = .ok (some key)) :
    rewrite_query gen e query cid settings
      = match gen key (rewrite_messages e query cid) (2 / 10 : ℚ) 150 with
        | .error err => .error ("Query rewriting failed: " ++ err)
        | .ok rq =>
            if rq = "" ∨ (pyStrip rq).length < 3 then
              .error "Query rewriting failed: Query rewriting returned empty or invalid response"
            else .ok (some (pyStrip rq)) := by
  rw [rewrite_query, if_neg h1]
  simp only [isEmpty_false_of_ne_nil h2, Bool.false_eq_true, if_false, hkey]

/-- C7: whenever rewriting is actually attempted (not disabled, history
present, a rewrite provider constructed) and the provider call raises, or
returns an empty or shorter-than-3-characters result, the whole chat turn
fails with a `Query rewriting failed` error and the engine state is
untouched — there is no silent fallback to the raw query. -/
theorem chat_rewrite_failure_fatal (gen : LLMKey → List Message → ℚ → Nat → Except String String)
    (emb : String → List ℚ) (e : RAGEngine) (query cid : String)
    (settings0 : Option LLMSettings) (now : String) (key : LLMKey)
    (h1 : (resolve_settings e cid settings0).rewrite_provider ≠ "disabled")
    (h2 : get_conversation_history e cid ≠ [])
    (hkey : get_llm_provider (resolve_settings e cid settings0) true = .ok (some key)) :
    (∀ msg, gen key (rewrite_messages e query cid) (2 / 10 : ℚ) 150 = .error msg →
        chat gen emb e query cid settings0 now
          = (.error ("Query rewriting failed: " ++ msg), e))
    ∧ (∀ rq, gen key (rewrite_messages e query cid) (2 / 10 : ℚ) 150 = .ok rq →
        (rq = "" ∨ (pyStrip rq).length < 3) →
        chat gen emb e query cid settings0 now
          = (.error "Query rewriting failed: Query rewriting returned empty or invalid response", e)) := by
  have hbase := rewrite_query_attempt gen e query cid (resolve_settings e cid settings0) key
    h1 h2 hkey
  constructor
  · intro msg hgen
    refine chat_of_rw_error gen emb e query cid settings0 now _ ?_
    rw [if_pos h1, hbase, hgen]
  · intro rq hgen hshort
    refine chat_of_rw_error gen emb e query cid settings0 now _ ?_
    rw [if_pos h1, hbase, hgen]
    show (if rq = "" ∨ (pyStrip rq).length < 3 then
          (Except.error "Query rewriting failed: Query rewriting returned empty or invalid response"
            : Except String (Option String))
        else Except.ok (some (pyStrip rq)))
      = Except.error "Query rewriting failed: Query rewriting returned empty or invalid response"
    rw [if_pos hshort]

lemma chat_cases (gen : LLMKey → List Message → ℚ → Nat → Except String String)
    (emb : String → List ℚ) (e : RAGEngine) (query cid : String)
    (settings0 : Option LLMSettings) (now : String) :
    (∃ err, chat gen emb e query cid settings0 now = (.error err, e))
    ∨ (∃ r, chat gen emb e query cid settings0 now
        = (.ok r, add_to_conversation
            (add_to_conversation e cid "user" query (resolve_settings e cid settings0) now)
            cid "assistant" r.answer (resolve_settings e cid settings0) now)) := by
  cases hrw : (if (resolve_settings e cid settings0).rewrite_provider ≠ "disabled"
      then rewrite_query gen e query cid (resolve_settings e cid settings0)
      else .ok none) with
  | error err => exact .inl ⟨err, chat_of_rw_error gen emb e query cid settings0 now err hrw⟩
  | ok orw =>
    rw [chat_of_rw_ok gen emb e query cid settings0 now orw hrw]
    cases hbc : build_context emb e.vector_store (resolve_search_query orw query)
        TOP_K_RESULTS with
    | error err => exact .inl ⟨err, by simp only [chat_stage2, hbc]⟩
    | ok p =>
      obtain ⟨ctx, srcs⟩ := p
      cases hkey : get_llm_provider (resolve_settings e cid settings0) false with
      | error err =>
          exact .inl ⟨"Answer generation failed: " ++ err,
            by simp only [chat_stage2, hbc, hkey]⟩
      | ok op =>
        cases op with
        | none =>
            exact .inl ⟨"Answer generation failed: no provider",
              by simp only [chat_stage2, hbc, hkey]⟩
        | some key =>
          cases hgen : gen key (chat_messages e cid query ctx) (3 / 10 : ℚ) 1000 with
          | error err =>
              exact .inl ⟨"Answer generation failed: " ++ err,
                by simp only [chat_stage2, hbc, hkey, hgen]⟩
          | ok ans =>
              exact .inr ⟨⟨ans, srcs, orw, resolve_settings e cid settings0⟩,
                by simp only [chat_stage2, hbc, hkey, hgen]⟩

/-- C10: a chat turn mutates the conversation map only after the answer
provider succeeds.  Every failing turn — including an answer-generation
failure — returns the engine exactly as it was (messages, titles and
`updated_at` untouched), and a successful turn appends exactly the user
query and the generated answer. -/
theorem chat_failure_leaves_conversations (gen : LLMKey → List Message → ℚ → Nat → Except String String)
    (emb : String → List ℚ) (e : RAGEngine) (query cid : String)
    (settings0 : Option LLMSettings) (now : String) :
    (∀ err, (chat gen emb e query cid settings0 now).1 = .error err →
        (chat gen emb e query cid settings0 now).2 = e)
    ∧ (∀ r, (chat gen emb e query cid settings0 now).1 = .ok r →
        (chat gen emb e query cid settings0 now).2
          = add_to_conversation
              (add_to_conversation e cid "user" query (resolve_settings e cid settings0) now)
              cid "assistant" r.answer (resolve_settings e cid settings0) now) := by
  rcases chat_cases gen emb e query cid settings0 now with ⟨err, hch⟩ | ⟨r, hch⟩
  · constructor
    · intro err' _
      rw [hch]
    · intro r hr
      rw [hch] at hr
      exact absurd hr (by simp)
  · constructor
    · intro err' herr
      rw [hch] at herr
      exact absurd herr (by simp)
    · intro r' hr
      rw [hch] at hr ⊢
      have : r = r' := by simpa using hr
      rw [← this]

/-- Default LLM settings as a concrete record. -/
def sampleLLMSettings : LLMSettings :=
  ⟨"openai", "gpt-4", "openai", some "gpt-3.5-turbo", none⟩

/-- A concrete empty vector store. -/
def emptyStore : VectorStore := ⟨none, none, none, [], none, 0, 0⟩

/-- A concrete engine with no conversations. -/
def engineEmpty : RAGEngine := { vector_store := emptyStore, conversations := fun _ => none }

/-- C8 (counterexample to "the first 50 characters"): the code strips
whitespace from the 50-character prefix.  For the 6-character first user
message `"hello "` the claim predicts the title `"hello "` (the message
itself, no ellipsis), but the stored title is `"hello"`. -/
theorem title_strips_whitespace :
    ((add_to_conversation engineEmpty "c1" "user" "hello " sampleLLMSettings "t0").conversations
        "c1").map Conversation.title = some "hello"
    ∧ pyTake "hello " 50 = "hello "
    ∧ ("hello" : String) ≠ "hello " := by
  refine ⟨by decide, by decide, by decide⟩

/-- C8 (amended): a conversation created by a first user message gets the
title `strip(first 50 characters)`, with an ellipsis appended iff the
message is longer than 50 characters, and no later append to the
conversation ever changes the title. -/
theorem title_from_first_user_message (e : RAGEngine) (cid content : String)
    (st : LLMSettings) (now : String) :
    (e.conversations cid = none →
        ((add_to_conversation e cid "user" content st now).conversations cid).map
            Conversation.title
          = some (if content.length > 50 then pyStrip (pyTake content 50) ++ "..."
              else pyStrip (pyTake content 50)))
    ∧ (∀ c role content2 st2 now2, e.conversations cid = some c →
        ((add_to_conversation e cid role content2 st2 now2).conversations cid).map
            Conversation.title
          = some c.title) := by
  constructor
  · intro h
    simp [add_to_conversation, h, generate_title]
  · intro c role content2 st2 now2 hc
    simp [add_to_conversation, hc]

/-- C8 witness. -/
theorem title_from_first_user_message_witness :
    ((add_to_conversation engineEmpty "c1" "user" "hi" sampleLLMSettings "t0").conversations
        "c1").map Conversation.title
      = some (if ("hi" : String).length > 50 then pyStrip (pyTake "hi" 50) ++ "..."
          else pyStrip (pyTake "hi" 50)) :=
  (title_from_first_user_message engineEmpty "c1" "hi" sampleLLMSettings "t0").1 rfl

/-- The message list stored for `cid`, empty when the conversation does not
exist. -/
def msgsOf (e : RAGEngine) (cid : String) : List Message :=
  match e.conversations cid with
  | some c => c.messages
  | none => []

/-- Appending the turns `ts` one by one through
`RAGEngine._add_to_conversation`. -/
def append_turns (e : RAGEngine) (cid : String) (ts : List (String × String))
    (st : LLMSettings) (now : String) : RAGEngine :=
  ts.foldl (fun acc t => add_to_conversation acc cid t.1 t.2 st now) e

lemma add_to_conversation_conv (e : RAGEngine) (cid role content : String)
    (st : LLMSettings) (now : String) :
    ∃ c, (add_to_conversation e cid role content st now).conversations cid = some c
      ∧ c.messages = msgsOf e cid ++ [⟨role, content⟩] := by
  cases hc : e.conversations cid with
  | none =>
      refine ⟨{ messages := [⟨role, content⟩], settings := st,
                title := if role = "user" then generate_title content else "New Conversation",
                created_at := now, updated_at := now }, ?_, ?_⟩
      · simp [add_to_conversation, hc]
      · simp [msgsOf, hc]
  | some c0 =>
      have hrec : (add_to_conversation e cid role content st now).conversations cid
          = some { c0 with
                   messages := c0.messages ++ [⟨role, content⟩],
                   updated_at := now,
                   settings := st } := by
        simp [add_to_conversation, hc]
      exact ⟨_, hrec, by simp [msgsOf, hc]⟩

lemma append_turns_conv (cid : String) (st : LLMSettings) (now : String) :
    ∀ (ts : List (String × String)) (e : RAGEngine), ts ≠ [] →
      ∃ c, (append_turns e cid ts st now).conversations cid = some c
        ∧ c.messages = msgsOf e cid ++ ts.map (fun t => Message.mk t.1 t.2) := by
  intro ts
  induction ts with
  | nil => intro e h; exact absurd rfl h
  | cons t ts ih =>
    intro e _
    rw [show append_turns e cid (t :: ts) st now
        = append_turns (add_to_conversation e cid t.1 t.2 st now) cid ts st now from rfl]
    by_cases hts : ts = []
    · subst hts
      obtain ⟨c, hc, hm⟩ := add_to_conversation_conv e cid t.1 t.2 st now
      exact ⟨c, hc, by rw [hm]; simp⟩
    · obtain ⟨c, hc, hm⟩ := ih (add_to_conversation e cid t.1 t.2 st now) hts
      refine ⟨c, hc, ?_⟩
      rw [hm]
      have hadd : msgsOf (add_to_conversation e cid t.1 t.2 st now) cid
          = msgsOf e cid ++ [⟨t.1, t.2⟩] := by
        obtain ⟨c', hc', hm'⟩ := add_to_conversation_conv e cid t.1 t.2 st now
        simp only [msgsOf, hc']
        exact hm'
      rw [hadd]
      simp

/-- C9: appending turns T1..Tn sequentially to one conversation and reading
the history back with limit `n` returns exactly those turns in append
order, and with a positive limit `k < n` returns exactly the last `k` of
them, still in order. -/
theorem conversation_history_ordering (e : RAGEngine) (cid : String)
    (ts : List (String × String)) (st : LLMSettings) (now : String) (hts : ts ≠ []) :
    get_conversation_history_limit (append_turns e cid ts st now) cid ts.length
        = ts.map (fun t => Message.mk t.1 t.2)
    ∧ ∀ k, 0 < k → k < ts.length →
        get_conversation_history_limit (append_turns e cid ts st now) cid k
          = (ts.map (fun t => Message.mk t.1 t.2)).drop (ts.length - k) := by
  obtain ⟨c, hc, hm⟩ := append_turns_conv cid st now ts e hts
  have hmap : (ts.map (fun t => Message.mk t.1 t.2)).length = ts.length := List.length_map _ _
  have hlen0 : 0 < ts.length := List.length_pos.mpr hts
  constructor
  · simp only [get_conversation_history_limit, hc, pySliceLast]
    rw [if_neg (by omega), hm]
    have h1 : (msgsOf e cid ++ ts.map (fun t => Message.mk t.1 t.2)).length - ts.length
        = (msgsOf e cid).length := by
      rw [List.length_append, hmap]
      omega
    rw [h1, List.drop_left]
  · intro k hk0 hkn
    simp only [get_conversation_history_limit, hc, pySliceLast]
    rw [if_neg (by omega), hm]
    have h2 : (msgsOf e cid ++ ts.map (fun t => Message.mk t.1 t.2)).length - k
        = (msgsOf e cid).length + (ts.length - k) := by
      rw [List.length_append, hmap]
      omega
    rw [h2, List.drop_append]

/-- C9 witness. -/
theorem conversation_history_ordering_witness :
    get_conversation_history_limit
        (append_turns engineEmpty "c1" [("user", "a"), ("assistant", "b"), ("user", "c")]
          sampleLLMSettings "t0") "c1" 3
      = [("user", "a"), ("assistant", "b"), ("user", "c")].map (fun t => Message.mk t.1 t.2) :=
  (conversation_history_ordering engineEmpty "c1"
    [("user", "a"), ("assistant", "b"), ("user", "c")] sampleLLMSettings "t0" (by decide)).1

/-- A concrete conversation with one completed Q&A pair. -/
def sampleConversation : Conversation :=
  { messages := [⟨"user", "hi"⟩, ⟨"assistant", "hello"⟩], settings := sampleLLMSettings,
    title := "hi", created_at := "t0", updated_at := "t0" }

/-- A concrete engine holding the conversation `c1`. -/
def engineWithHistory : RAGEngine :=
  { vector_store := emptyStore,
    conversations := fun cid => if cid = "c1" then some sampleConversation else none }

/-- A concrete answer provider behaviour that always succeeds. -/
def genOK : LLMKey → List Message → ℚ → Nat → Except String String :=
  fun _ _ _ _ => .ok "answer"

/-- A concrete provider behaviour returning a too-short rewrite. -/
def genShort : LLMKey → List Message → ℚ → Nat → Except String String :=
  fun _ _ _ _ => .ok "x"

/-- A concrete provider behaviour that always raises. -/
def genFail : LLMKey → List Message → ℚ → Nat → Except String String :=
  fun _ _ _ _ => .error "boom"

/-- C5 witness. -/
theorem add_delete_roundtrip_witness :
    (lockedStore.add_documents emb0 [sampleChunk2]).1 = .ok ()
    ∧ ((((lockedStore.add_documents emb0 [sampleChunk2]).2).delete_document emb0 "d2").2).search
          emb0 "q" 5
        = lockedStore.search emb0 "q" 5 :=
  ⟨(add_delete_roundtrip emb0 lockedStore "d2" [sampleChunk2] sampleSettings 1536 [[11]]
      rfl rfl (by decide) rfl (by decide) (by decide) (by decide) (by decide)).1,
   (add_delete_roundtrip emb0 lockedStore "d2" [sampleChunk2] sampleSettings 1536 [[11]]
      rfl rfl (by decide) rfl (by decide) (by decide) (by decide) (by decide)).2.2 "q" 5⟩

/-- C6 witness. -/
theorem chat_skips_rewrite_witness :
    (ChatResult.mk "answer" [] none get_default_settings).rewritten_query = none
    ∧ ∃ ctx, build_context emb0 engineEmpty.vector_store "q" TOP_K_RESULTS
        = .ok (ctx, (ChatResult.mk "answer" [] none get_default_settings).sources) :=
  (chat_skips_rewrite genOK emb0 engineEmpty "q" "c1" none "t1" (Or.inr rfl)).2
    (ChatResult.mk "answer" [] none get_default_settings)
    (add_to_conversation
      (add_to_conversation engineEmpty "c1" "user" "q" get_default_settings "t1")
      "c1" "assistant" "answer" get_default_settings "t1")
    rfl

/-- C7 witness. -/
theorem chat_rewrite_failure_fatal_witness :
    chat genShort emb0 engineWithHistory "more" "c1" none "t1"
      = (.error "Query rewriting failed: Query rewriting returned empty or invalid response",
          engineWithHistory) :=
  (chat_rewrite_failure_fatal genShort emb0 engineWithHistory "more" "c1" none "t1"
      ⟨"openai", some "gpt-3.5-turbo", none⟩ (by decide) (by decide) rfl).2
    "x" rfl (Or.inr (by decide))

/-- C10 witness. -/
theorem chat_failure_leaves_conversations_witness :
    (chat genFail emb0 engineEmpty "q" "c1" none "t1").2 = engineEmpty :=
  (chat_failure_leaves_conversations genFail emb0 engineEmpty "q" "c1" none "t1").1
    "Answer generation failed: boom" rfl
